import Mathlib

/-!
Shallow embedding of the SLAMpy source-load tools
(SLAMpy/_DirectIndustry.py and SLAMpy/_DirectWastewater.py).

The Python code is straight-line glue over the ArcPy geoprocessing API.
We embed it at two levels:

* the per-row field formulas (the Python expressions and code blocks
  passed to CalculateField_management), as functions over the rational
  numbers;
* the sequence of vendor operations each geoprocessing function and each
  tool execute method issues, as a trace of `Op` values.  The functions
  are deterministic straight-line code, so the trace of a run is a pure
  function of the inputs.

Strings, paths and the os.sep join are embedded literally.  A Python
value that can be None or a string is an `Option String`; Python
truthiness of such a value is `optTruthy`.
-/

namespace SLAMpy

/-- Embedding of Python sep.join(parts): the parts interleaved with the
separator, empty string for an empty list. -/
def sepJoin (sep : String) : List String → String
  | [] => ""
  | [x] => x
  | x :: y :: rest => x ++ sep ++ sepJoin sep (y :: rest)

/-- Python truthiness of an optional string parameter value
(None and the empty string are falsy). -/
def optTruthy : Option String → Bool
  | none => false
  | some s => !s.isEmpty

/-- Embedding of the Python idiom `if not out: out = default` used for the
optional output-path arguments of the geoprocessing functions. -/
def defaultOr (given : Option String) (dflt : String) : String :=
  match given with
  | none => dflt
  | some s => if s.isEmpty then dflt else s

/-- Embedding of `nutrient = 'N' if nutrient == 'Nitrogen (N)' else 'P'`,
the line shared verbatim by IndustryV2.execute, WastewaterV2.execute and
WastewaterV1.execute. -/
def nutrient_code (nutrient : String) : String :=
  if nutrient = "Nitrogen (N)" then "N" else "P"

/-- Embedding of `location = sep.join([out_gdb, project_name + '_SelectedRegion'])`,
the temporary feature-class path shared by the three execute methods. -/
def selected_region_path (sep out_gdb project_name : String) : String :=
  sepJoin sep [out_gdb, project_name ++ "_SelectedRegion"]

/-- Embedding of the Python builtin max on a non-empty list of numbers,
given as head and tail. -/
def pymax (x : ℚ) (xs : List ℚ) : ℚ := xs.foldl max x

/-! ### Per-row field formulas -/

/-- Attribute values of one row of the Section 4 licences feature class
that the industry_v2_geoprocessing field calculations read. -/
structure Sect4Row where
  Flow__m3_d : ℚ
  Discharge_ : ℚ
  TON_ELV : ℚ
  TN_ELV : ℚ
  NO3_ELV : ℚ
  NH3_ELV : ℚ
  NH4_ELV : ℚ
  NO2_ELV : ℚ
  TP_ELV : ℚ
  PO4_ELV : ℚ
deriving DecidableEq

/-- The three fields industry_v2_geoprocessing adds to a Section 4 row. -/
structure Sect4Out where
  row : Sect4Row
  Sect4_Flow : ℚ
  Sect4_ELV : ℚ
  Sect4_Load : ℚ
deriving DecidableEq

/-- Embedding of the three CalculateField code blocks run on the Section 4
output, in order: Sect4_Flow (Flow__m3_d if positive, else Discharge_),
Sect4_ELV (max of the ELV fields of the nutrient of interest), and
Sect4_Load = Sect4_ELV * 0.25 * Sect4_Flow * 0.365 computed from the two
fields just written. -/
def sect4_process (nutrient : String) (r : Sect4Row) : Sect4Out :=
  let flow := if r.Flow__m3_d > 0 then r.Flow__m3_d else r.Discharge_
  let elv :=
    if nutrient = "N" then
      pymax r.TON_ELV [r.TN_ELV, r.NO3_ELV, r.NH3_ELV, r.NH4_ELV, r.NO2_ELV]
    else
      pymax r.TP_ELV [r.PO4_ELV]
  { row := r, Sect4_Flow := flow, Sect4_ELV := elv,
    Sect4_Load := elv * 0.25 * flow * 0.365 }

/-- Embedding of the PE_calc code block of wastewater_v1_geoprocessing:
def factor(aer14, lema): if aer14 > 1: return aer14 else: return lema,
applied to the AER14_PE and LEMA_PE fields of a row. -/
def pe_calc_factor (aer14 lema : ℚ) : ℚ :=
  if aer14 > 1 then aer14 else lema

/-- One row of the WWTP factor table iterated by the SearchCursor in
wastewater_v1_geoprocessing. -/
structure FactorRow where
  FactorName : String
  raw : ℚ
  prelim : ℚ
  primary : ℚ
  second : ℚ
  tertN : ℚ
  tertNP : ℚ
  tertP : ℚ
  POPfactor : ℚ
deriving DecidableEq

/-- The eight factor values wastewater_v1_geoprocessing binds from the
matching factor-table row. -/
structure Factors where
  raw : ℚ
  prelim : ℚ
  primary : ℚ
  second : ℚ
  tertN : ℚ
  tertNP : ℚ
  tertP : ℚ
  POPfactor : ℚ
deriving DecidableEq

/-- The eight values read with row.getValue from a matching row. -/
def factorsOfRow (r : FactorRow) : Factors :=
  ⟨r.raw, r.prelim, r.primary, r.second, r.tertN, r.tertNP, r.tertP, r.POPfactor⟩

/-- Embedding of the SearchCursor loop of wastewater_v1_geoprocessing: scan
the factor table in order, bind the eight factors from the first row whose
FactorName equals the nutrient code followed by the literal suffix
underscore factors, and break; none when no row matches (the code then
raises an exception). -/
def lookup_factors (nutrient : String) : List FactorRow → Option Factors
  | [] => none
  | r :: rest =>
    if r.FactorName = nutrient ++ "_factors" then some (factorsOfRow r)
    else lookup_factors nutrient rest

/-- Embedding of the Treat_Fact code block of wastewater_v1_geoprocessing:
the branch on the TreatmentL string, with the looked-up factors
interpolated in the order raw, prelim, primary, second, tertN, tertNP,
tertP, second, primary. -/
def treat_factor (f : Factors) (treatment : String) : ℚ :=
  if treatment = "0 - No Treatment" then f.raw
  else if treatment = "0 - Preliminary Treatment" then f.prelim
  else if treatment = "1 - Primary Treatment" then f.primary
  else if treatment = "2 - Secondary Treatment" then f.second
  else if treatment = "3N - Tertiary N Removal" then f.tertN
  else if treatment = "3NP - Tertiary N&P Removal" then f.tertNP
  else if treatment = "3P - Tertiary P Removal" then f.tertP
  else if treatment = "Secondary" then f.second
  else f.primary

/-- Embedding of the PEqWast1calc code block: zero when the reported AER
value exceeds one, otherwise PE_calc * Treat_Fact * (POPfactor * 365 / 1000). -/
def peq_wast1_value (POPfactor wwtp_aer pe_calc treat_fact : ℚ) : ℚ :=
  if wwtp_aer > 1 then 0 else pe_calc * treat_fact * (POPfactor * 365 / 1000)

/-- Embedding of the PEqSWOWast1calc code block. -/
def peq_swo_wast1_value (POPfactor swo_aer pe loss_perce : ℚ) : ℚ :=
  if swo_aer < 0.1 then ((pe * (POPfactor * 365 / 1000)) / 1 - loss_perce) * loss_perce
  else 0

/-! ### Vendor-operation traces -/

/-- One invocation of a vendor (ArcPy) operation, with the arguments the
claims are about. -/
inductive Op where
  | select (inp out whereClause : String)
  | intersect (inputs : List String) (out : String)
  | spatialJoin (target joinFc out : String)
  | deleteIdentical (fc field : String)
  | addField (fc field : String)
  | calculateField (fc field : String)
  | delete (fc : String)
deriving DecidableEq

/-- The kind of a vendor operation, forgetting its arguments. -/
inductive OpKind where
  | select
  | intersect
  | spatialJoin
  | deleteIdentical
  | addField
  | calculateField
  | delete
deriving DecidableEq

/-- Projection of an operation to its kind. -/
def Op.kind : Op → OpKind
  | .select _ _ _ => .select
  | .intersect _ _ => .intersect
  | .spatialJoin _ _ _ => .spatialJoin
  | .deleteIdentical _ _ => .deleteIdentical
  | .addField _ _ => .addField
  | .calculateField _ _ => .calculateField
  | .delete _ => .delete

/-- Whether an operation is a Select_analysis call. -/
def Op.isSelect : Op → Bool
  | .select _ _ _ => true
  | _ => false

/-- Whether an operation is a Delete_management call. -/
def Op.isDelete : Op → Bool
  | .delete _ => true
  | _ => false

/-- Trace of vendor operations issued by a run together with the message
of the exception the run raised, if any. -/
structure GeoResult where
  trace : List Op
  error : Option String
deriving DecidableEq

/-- Embedding of industry_v2_geoprocessing: default the two output paths
when not supplied, then issue Intersect, AddField, CalculateField for the
IPC licences, and Intersect followed by three AddField/CalculateField
pairs (Sect4_Flow, Sect4_ELV, Sect4_Load) for the Section 4 licences.
The function raises no exception, so the result is just the trace. -/
def industry_v2_geoprocessing (sep project_name nutrient location in_ipc in_sect4 out_gdb : String)
    (out_ipc out_sect4 : Option String) : List Op :=
  let out_ipc := defaultOr out_ipc
    (sepJoin sep [out_gdb, project_name ++ "_" ++ nutrient ++ "_IndustryIPC"])
  let out_sect4 := defaultOr out_sect4
    (sepJoin sep [out_gdb, project_name ++ "_" ++ nutrient ++ "_IndustrySect4"])
  [Op.intersect [location, in_ipc] out_ipc,
   Op.addField out_ipc "IPPC_calc",
   Op.calculateField out_ipc "IPPC_calc",
   Op.intersect [location, in_sect4] out_sect4,
   Op.addField out_sect4 "Sect4_Flow",
   Op.calculateField out_sect4 "Sect4_Flow",
   Op.addField out_sect4 "Sect4_ELV",
   Op.calculateField out_sect4 "Sect4_ELV",
   Op.addField out_sect4 "Sect4_Load",
   Op.calculateField out_sect4 "Sect4_Load"]

/-- Embedding of wastewater_v2_geoprocessing: default the output path when
not supplied, then issue SpatialJoin followed by two
AddField/CalculateField pairs (CSOWast2calc, AggWast2calc). -/
def wastewater_v2_geoprocessing (sep project_name nutrient location in_agglo out_gdb : String)
    (out_agglo : Option String) : List Op :=
  let o := defaultOr out_agglo
    (sepJoin sep [out_gdb, project_name ++ "_" ++ nutrient ++ "_Wastewater"])
  [Op.spatialJoin in_agglo location o,
   Op.addField o "CSOWast2calc",
   Op.calculateField o "CSOWast2calc",
   Op.addField o "AggWast2calc",
   Op.calculateField o "AggWast2calc"]

/-- Embedding of wastewater_v1_geoprocessing: default the output path,
issue SpatialJoin, DeleteIdentical on RegCD, the PE_calc
AddField/CalculateField pair, then look the nutrient factors up in the
factor table; on a miss raise the exception with the message built from
the nutrient code and the factor-table path, otherwise issue the five
remaining AddField/CalculateField pairs.  The factor table is passed both
as its path (used only in the exception message) and as its rows (what
the SearchCursor iterates). -/
def wastewater_v1_geoprocessing (sep project_name nutrient location in_wwtp : String)
    (in_factors_wwtp : String) (factors_table : List FactorRow) (out_gdb : String)
    (out_wwtp : Option String) : GeoResult :=
  let o := defaultOr out_wwtp
    (sepJoin sep [out_gdb, project_name ++ "_" ++ nutrient ++ "_Wastewater"])
  let head := [Op.spatialJoin in_wwtp location o,
               Op.deleteIdentical o "RegCD",
               Op.addField o "PE_calc",
               Op.calculateField o "PE_calc"]
  match lookup_factors nutrient factors_table with
  | none =>
      ⟨head, some ("Factors for " ++ nutrient ++ " are not available in " ++ in_factors_wwtp)⟩
  | some _ =>
      ⟨head ++
        [Op.addField o "Treat_Fact",
         Op.calculateField o "Treat_Fact",
         Op.addField o "PEqWast1calc",
         Op.calculateField o "PEqWast1calc",
         Op.addField o "PEqSWOWast1calc",
         Op.calculateField o "PEqSWOWast1calc",
         Op.addField o "AERWast1calc",
         Op.calculateField o "AERWast1calc",
         Op.addField o "AERSWOWast1calc",
         Op.calculateField o "AERSWOWast1calc"], none⟩

/-- Embedding of IndustryV2.execute: map the nutrient parameter to its
code, select the requested locations within the region into the temporary
SelectedRegion feature class when a selection is given (passing that
subset on as the location), and run the geoprocessing function.  No
garbage collection is performed. -/
def IndustryV2_execute (sep out_gdb out_fld project_name nutrient region : String)
    (selection : Option String) (in_ipc in_sect4 : String) : List Op :=
  let nc := nutrient_code nutrient
  if optTruthy selection then
    let location := selected_region_path sep out_gdb project_name
    Op.select region location (selection.getD "") ::
      industry_v2_geoprocessing sep project_name nc location in_ipc in_sect4 out_gdb none none
  else
    industry_v2_geoprocessing sep project_name nc region in_ipc in_sect4 out_gdb none none

/-- Embedding of WastewaterV2.execute: as IndustryV2.execute, but running
wastewater_v2_geoprocessing and deleting the temporary SelectedRegion
feature class afterwards when a selection was requested. -/
def WastewaterV2_execute (sep out_gdb out_fld project_name nutrient region : String)
    (selection : Option String) (in_agglo : String) : List Op :=
  let nc := nutrient_code nutrient
  if optTruthy selection then
    let location := selected_region_path sep out_gdb project_name
    Op.select region location (selection.getD "") ::
      wastewater_v2_geoprocessing sep project_name nc location in_agglo out_gdb none
        ++ [Op.delete location]
  else
    wastewater_v2_geoprocessing sep project_name nc region in_agglo out_gdb none

/-- Embedding of WastewaterV1.execute: map the nutrient parameter, choose
the factor table for that nutrient, optionally select the requested
locations, run wastewater_v1_geoprocessing, and delete the temporary
SelectedRegion feature class only when a selection was requested and the
geoprocessing returned without raising (the exception propagates before
the Delete_management line is reached). -/
def WastewaterV1_execute (sep out_gdb out_fld project_name nutrient region : String)
    (selection : Option String) (in_wwtp : String)
    (in_factors_wwtp_n in_factors_wwtp_p : String)
    (factors_table_n factors_table_p : List FactorRow) : GeoResult :=
  let nc := nutrient_code nutrient
  let in_factors_wwtp := if nc = "N" then in_factors_wwtp_n else in_factors_wwtp_p
  let ftable := if nc = "N" then factors_table_n else factors_table_p
  if optTruthy selection then
    let location := selected_region_path sep out_gdb project_name
    let g := wastewater_v1_geoprocessing sep project_name nc location in_wwtp
      in_factors_wwtp ftable out_gdb none
    match g.error with
    | none => ⟨Op.select region location (selection.getD "") :: g.trace ++ [Op.delete location], none⟩
    | some e => ⟨Op.select region location (selection.getD "") :: g.trace, some e⟩
  else
    wastewater_v1_geoprocessing sep project_name nc region in_wwtp
      in_factors_wwtp ftable out_gdb none

/-- The geoprocessing call WastewaterV1.execute makes once the selected
location is fixed: the nutrient parameter is mapped to its code and the
factor table (path and rows) for that code is chosen. -/
def wastewater_v1_execute_geo (sep out_gdb project_name nutrient location in_wwtp : String)
    (in_factors_wwtp_n in_factors_wwtp_p : String)
    (factors_table_n factors_table_p : List FactorRow) : GeoResult :=
  wastewater_v1_geoprocessing sep project_name (nutrient_code nutrient) location in_wwtp
    (if nutrient_code nutrient = "N" then in_factors_wwtp_n else in_factors_wwtp_p)
    (if nutrient_code nutrient = "N" then factors_table_n else factors_table_p)
    out_gdb none

/-! ### Helper lemmas -/

/-- industry_v2_geoprocessing never issues a Select_analysis call. -/
theorem industry_geo_filter_select
    (sep project_name nutrient location in_ipc in_sect4 out_gdb : String)
    (out_ipc out_sect4 : Option String) :
    (industry_v2_geoprocessing sep project_name nutrient location in_ipc in_sect4 out_gdb
      out_ipc out_sect4).filter Op.isSelect = [] := by
  simp [industry_v2_geoprocessing, Op.isSelect, List.filter]

/-- industry_v2_geoprocessing never issues a Delete_management call. -/
theorem industry_geo_filter_delete
    (sep project_name nutrient location in_ipc in_sect4 out_gdb : String)
    (out_ipc out_sect4 : Option String) :
    (industry_v2_geoprocessing sep project_name nutrient location in_ipc in_sect4 out_gdb
      out_ipc out_sect4).filter Op.isDelete = [] := by
  simp [industry_v2_geoprocessing, Op.isDelete, List.filter]

/-- wastewater_v2_geoprocessing never issues a Select_analysis call. -/
theorem wastewater_v2_geo_filter_select
    (sep project_name nutrient location in_agglo out_gdb : String)
    (out_agglo : Option String) :
    (wastewater_v2_geoprocessing sep project_name nutrient location in_agglo out_gdb
      out_agglo).filter Op.isSelect = [] := by
  simp [wastewater_v2_geoprocessing, Op.isSelect, List.filter]

/-- wastewater_v2_geoprocessing never issues a Delete_management call. -/
theorem wastewater_v2_geo_filter_delete
    (sep project_name nutrient location in_agglo out_gdb : String)
    (out_agglo : Option String) :
    (wastewater_v2_geoprocessing sep project_name nutrient location in_agglo out_gdb
      out_agglo).filter Op.isDelete = [] := by
  simp [wastewater_v2_geoprocessing, Op.isDelete, List.filter]

/-- wastewater_v1_geoprocessing never issues a Select_analysis call. -/
theorem wastewater_v1_geo_filter_select
    (sep project_name nutrient location in_wwtp in_factors_wwtp : String)
    (factors_table : List FactorRow) (out_gdb : String) (out_wwtp : Option String) :
    (wastewater_v1_geoprocessing sep project_name nutrient location in_wwtp in_factors_wwtp
      factors_table out_gdb out_wwtp).trace.filter Op.isSelect = [] := by
  cases h : lookup_factors nutrient factors_table <;>
    simp [wastewater_v1_geoprocessing, h, Op.isSelect, List.filter]

/-- wastewater_v1_geoprocessing never issues a Delete_management call. -/
theorem wastewater_v1_geo_filter_delete
    (sep project_name nutrient location in_wwtp in_factors_wwtp : String)
    (factors_table : List FactorRow) (out_gdb : String) (out_wwtp : Option String) :
    (wastewater_v1_geoprocessing sep project_name nutrient location in_wwtp in_factors_wwtp
      factors_table out_gdb out_wwtp).trace.filter Op.isDelete = [] := by
  cases h : lookup_factors nutrient factors_table <;>
    simp [wastewater_v1_geoprocessing, h, Op.isDelete, List.filter]

/-- The Python max of a non-empty list is an element of the list. -/
theorem pymax_mem (x : ℚ) (xs : List ℚ) : pymax x xs ∈ x :: xs := by
  induction xs generalizing x with
  | nil => simp [pymax]
  | cons a as ih =>
    have h := ih (max x a)
    show pymax (max x a) as ∈ x :: a :: as
    rcases max_choice x a with hm | hm <;> rw [hm] at h ⊢ <;>
      rcases List.mem_cons.mp h with h1 | h1 <;> simp [h1]

/-- The Python max of a non-empty list bounds every element of the list. -/
theorem pymax_le (x : ℚ) (xs : List ℚ) : ∀ y ∈ x :: xs, y ≤ pymax x xs := by
  induction xs generalizing x with
  | nil =>
    intro y hy
    simp only [List.mem_cons, List.not_mem_nil, or_false] at hy
    simp [pymax, hy]
  | cons a as ih =>
    intro y hy
    have hhead : max x a ≤ pymax (max x a) as :=
      ih (max x a) (max x a) (List.mem_cons_self _ _)
    show y ≤ pymax (max x a) as
    rcases List.mem_cons.mp hy with h1 | h1
    · rw [h1]
      exact le_trans (le_max_left x a) hhead
    · rcases List.mem_cons.mp h1 with h2 | h2
      · rw [h2]
        exact le_trans (le_max_right x a) hhead
      · exact ih (max x a) y (List.mem_cons_of_mem _ h2)

/-! ### Claim theorems -/

/-- C1 counterexample: the PE_calc formula does not return the larger of
the two estimates for every pair of inputs.  With AER14_PE = 2 and
LEMA_PE = 5 the code returns 2 (because AER14_PE > 1), while the larger
estimate is 5. -/
theorem pe_calc_factor_not_max :
    pe_calc_factor 2 5 = 2 ∧ max (2 : ℚ) 5 = 5 ∧ pe_calc_factor 2 5 ≠ max (2 : ℚ) 5 := by
  refine ⟨?_, ?_, ?_⟩ <;> norm_num [pe_calc_factor]

/-- C1 amended: the PE_calc field computed per row from AER14_PE and
LEMA_PE equals AER14_PE whenever AER14_PE > 1, and LEMA_PE otherwise (it
is the larger of the two only when that conditional choice happens to be
the larger one). -/
theorem pe_calc_factor_conditional (aer14 lema : ℚ) :
    (1 < aer14 → pe_calc_factor aer14 lema = aer14) ∧
    (¬ 1 < aer14 → pe_calc_factor aer14 lema = lema) := by
  constructor <;> intro h <;> simp [pe_calc_factor, h]

/-- Witness for the amended C1 theorem at concrete inputs. -/
theorem pe_calc_factor_conditional_witness :
    (1 < (2 : ℚ)) ∧ pe_calc_factor 2 5 = 2
      ∧ ¬ (1 < (1 / 2 : ℚ)) ∧ pe_calc_factor (1 / 2) 7 = 7 :=
  ⟨by norm_num, (pe_calc_factor_conditional 2 5).1 (by norm_num),
   by norm_num, (pe_calc_factor_conditional (1 / 2) 7).2 (by norm_num)⟩

/-- C2: for every row of the Section 4 output, Sect4_Load equals
Sect4_ELV * 0.25 * Sect4_Flow * 0.365, where Sect4_Flow is Flow__m3_d
when Flow__m3_d > 0 and Discharge_ otherwise, and Sect4_ELV is the
maximum of the nutrient ELV fields (TON, TN, NO3, NH3, NH4, NO2 for N;
TP, PO4 for P). -/
theorem sect4_load_spec (nutrient : String) (r : Sect4Row) :
    (sect4_process nutrient r).Sect4_Load
        = (sect4_process nutrient r).Sect4_ELV * 0.25
            * (sect4_process nutrient r).Sect4_Flow * 0.365
  ∧ (sect4_process nutrient r).Sect4_Flow
        = (if r.Flow__m3_d > 0 then r.Flow__m3_d else r.Discharge_)
  ∧ (nutrient = "N" →
      (sect4_process nutrient r).Sect4_ELV
          ∈ [r.TON_ELV, r.TN_ELV, r.NO3_ELV, r.NH3_ELV, r.NH4_ELV, r.NO2_ELV]
        ∧ ∀ x ∈ [r.TON_ELV, r.TN_ELV, r.NO3_ELV, r.NH3_ELV, r.NH4_ELV, r.NO2_ELV],
            x ≤ (sect4_process nutrient r).Sect4_ELV)
  ∧ (nutrient = "P" →
      (sect4_process nutrient r).Sect4_ELV ∈ [r.TP_ELV, r.PO4_ELV]
        ∧ ∀ x ∈ [r.TP_ELV, r.PO4_ELV], x ≤ (sect4_process nutrient r).Sect4_ELV) := by
  refine ⟨rfl, rfl, ?_, ?_⟩
  · intro hn
    subst hn
    have h1 : (sect4_process "N" r).Sect4_ELV
        = pymax r.TON_ELV [r.TN_ELV, r.NO3_ELV, r.NH3_ELV, r.NH4_ELV, r.NO2_ELV] := rfl
    rw [h1]
    exact ⟨pymax_mem _ _, pymax_le _ _⟩
  · intro hn
    subst hn
    have h1 : (sect4_process "P" r).Sect4_ELV = pymax r.TP_ELV [r.PO4_ELV] := rfl
    rw [h1]
    exact ⟨pymax_mem _ _, pymax_le _ _⟩

/-- Witness for C2 at a concrete nutrient and row, for both nutrient codes. -/
theorem sect4_load_spec_witness :
    ((sect4_process "N" ⟨1, 2, 3, 4, 5, 6, 7, 8, 9, 10⟩).Sect4_ELV
        ∈ [(3 : ℚ), 4, 5, 6, 7, 8])
  ∧ ((sect4_process "P" ⟨1, 2, 3, 4, 5, 6, 7, 8, 9, 10⟩).Sect4_ELV ∈ [(9 : ℚ), 10]) :=
  ⟨((sect4_load_spec "N" ⟨1, 2, 3, 4, 5, 6, 7, 8, 9, 10⟩).2.2.1 rfl).1,
   ((sect4_load_spec "P" ⟨1, 2, 3, 4, 5, 6, 7, 8, 9, 10⟩).2.2.2 rfl).1⟩

/-- C3: the factor lookup scans the table in order and binds the factors
from the first row whose FactorName is the nutrient code followed by the
suffix underscore factors (stated via List.find?); it returns none, and
wastewater_v1_geoprocessing raises the exception, exactly when no row of
the table has that FactorName. -/
theorem lookup_factors_spec (nutrient : String) (t : List FactorRow) :
    lookup_factors nutrient t
        = (t.find? (fun r => r.FactorName == nutrient ++ "_factors")).map factorsOfRow
  ∧ (lookup_factors nutrient t = none ↔ ∀ r ∈ t, r.FactorName ≠ nutrient ++ "_factors")
  ∧ ∀ sep project_name location in_wwtp in_factors_wwtp out_gdb out_wwtp,
      ((wastewater_v1_geoprocessing sep project_name nutrient location in_wwtp
          in_factors_wwtp t out_gdb out_wwtp).error.isSome
        ↔ ∀ r ∈ t, r.FactorName ≠ nutrient ++ "_factors") := by
  have hfind : lookup_factors nutrient t
      = (t.find? (fun r => r.FactorName == nutrient ++ "_factors")).map factorsOfRow := by
    induction t with
    | nil => rfl
    | cons r rest ih =>
      by_cases h : r.FactorName = nutrient ++ "_factors"
      · have hb : (r.FactorName == nutrient ++ "_factors") = true := by simp [h]
        simp [lookup_factors, h, List.find?_cons_of_pos _ hb]
      · have hb : ¬ (r.FactorName == nutrient ++ "_factors") = true := by simp [h]
        simp [lookup_factors, h, List.find?_cons_of_neg _ hb, ih]
  have hnone : lookup_factors nutrient t = none
      ↔ ∀ r ∈ t, r.FactorName ≠ nutrient ++ "_factors" := by
    rw [hfind]
    simp [List.find?_eq_none, beq_iff_eq]
  refine ⟨hfind, hnone, ?_⟩
  intro sep project_name location in_wwtp in_factors_wwtp out_gdb out_wwtp
  cases h : lookup_factors nutrient t with
  | none =>
    simp only [wastewater_v1_geoprocessing, h, Option.isSome_some, true_iff]
    exact hnone.mp h
  | some f =>
    simp only [wastewater_v1_geoprocessing, h, Option.isSome_none, Bool.false_eq_true,
      false_iff]
    intro hall
    exact absurd (hnone.mpr hall) (by simp [h])

/-- C4: the per-row Treat_Fact value is selected from the TreatmentL
string exactly as the claim enumerates, with every string outside the
eight enumerated ones yielding the primary factor. -/
theorem treat_factor_spec (f : Factors) :
    treat_factor f "0 - No Treatment" = f.raw
  ∧ treat_factor f "0 - Preliminary Treatment" = f.prelim
  ∧ treat_factor f "1 - Primary Treatment" = f.primary
  ∧ treat_factor f "2 - Secondary Treatment" = f.second
  ∧ treat_factor f "Secondary" = f.second
  ∧ treat_factor f "3N - Tertiary N Removal" = f.tertN
  ∧ treat_factor f "3NP - Tertiary N&P Removal" = f.tertNP
  ∧ treat_factor f "3P - Tertiary P Removal" = f.tertP
  ∧ ∀ t, t ∉ (["0 - No Treatment", "0 - Preliminary Treatment", "1 - Primary Treatment",
        "2 - Secondary Treatment", "Secondary", "3N - Tertiary N Removal",
        "3NP - Tertiary N&P Removal", "3P - Tertiary P Removal"] : List String) →
      treat_factor f t = f.primary := by
  refine ⟨rfl, rfl, rfl, rfl, rfl, rfl, rfl, rfl, ?_⟩
  intro t ht
  simp only [List.mem_cons, List.not_mem_nil, or_false, not_or] at ht
  obtain ⟨h1, h2, h3, h4, h5, h6, h7, h8⟩ := ht
  simp [treat_factor, h1, h2, h3, h4, h5, h6, h7, h8]

/-- Witness for C4 at a concrete factor record and a string outside the
enumerated treatment levels. -/
theorem treat_factor_spec_witness :
    ("Unknown Treatment" ∉ (["0 - No Treatment", "0 - Preliminary Treatment",
        "1 - Primary Treatment", "2 - Secondary Treatment", "Secondary",
        "3N - Tertiary N Removal", "3NP - Tertiary N&P Removal",
        "3P - Tertiary P Removal"] : List String))
  ∧ treat_factor ⟨1, 2, 3, 4, 5, 6, 7, 8⟩ "Unknown Treatment" = 3 := by
  refine ⟨by decide, ?_⟩
  have h := (treat_factor_spec ⟨1, 2, 3, 4, 5, 6, 7, 8⟩).2.2.2.2.2.2.2.2
    "Unknown Treatment" (by decide)
  simpa using h

/-- C5: the vendor operations are invoked in a fixed order.
industry_v2_geoprocessing always issues Intersect, AddField,
CalculateField for IPC, then Intersect followed by three
AddField/CalculateField pairs for Section 4; wastewater_v1_geoprocessing
always issues SpatialJoin, then DeleteIdentical, then alternating
AddField/CalculateField pairs (six pairs on a successful factor lookup,
one pair before the exception on a failed lookup).  Both functions are
deterministic, so no other order is possible. -/
theorem geoprocessing_fixed_order
    (sep project_name nutrient location in_ipc in_sect4 out_gdb : String)
    (out_ipc out_sect4 : Option String)
    (in_wwtp in_factors_wwtp : String) (factors_table : List FactorRow)
    (out_wwtp : Option String) :
    ((industry_v2_geoprocessing sep project_name nutrient location in_ipc in_sect4 out_gdb
        out_ipc out_sect4).map Op.kind
      = [.intersect, .addField, .calculateField,
         .intersect, .addField, .calculateField, .addField, .calculateField,
         .addField, .calculateField])
  ∧ ((wastewater_v1_geoprocessing sep project_name nutrient location in_wwtp in_factors_wwtp
        factors_table out_gdb out_wwtp).trace.map Op.kind
      = (if (lookup_factors nutrient factors_table).isSome
         then [.spatialJoin, .deleteIdentical,
               .addField, .calculateField, .addField, .calculateField,
               .addField, .calculateField, .addField, .calculateField,
               .addField, .calculateField, .addField, .calculateField]
         else [.spatialJoin, .deleteIdentical, .addField, .calculateField])) := by
  constructor
  · simp [industry_v2_geoprocessing, Op.kind]
  · cases h : lookup_factors nutrient factors_table with
    | none => simp [wastewater_v1_geoprocessing, h, Op.kind]
    | some f => simp [wastewater_v1_geoprocessing, h, Op.kind]

/-- C6: when the optional output-path argument is not supplied, the
default output path is the output geodatabase, the separator, the project
name and the fixed nutrient-bearing suffix: IndustryIPC and IndustrySect4
for the two industry outputs, Wastewater for both wastewater versions. -/
theorem default_output_paths
    (sep project_name nutrient location in_ipc in_sect4 in_agglo in_wwtp
      in_factors_wwtp out_gdb : String)
    (factors_table : List FactorRow) :
    ((industry_v2_geoprocessing sep project_name nutrient location in_ipc in_sect4 out_gdb
        none none).head?
      = some (Op.intersect [location, in_ipc]
          (out_gdb ++ sep ++ (project_name ++ "_" ++ nutrient ++ "_IndustryIPC"))))
  ∧ ((industry_v2_geoprocessing sep project_name nutrient location in_ipc in_sect4 out_gdb
        none none)[3]?
      = some (Op.intersect [location, in_sect4]
          (out_gdb ++ sep ++ (project_name ++ "_" ++ nutrient ++ "_IndustrySect4"))))
  ∧ ((wastewater_v2_geoprocessing sep project_name nutrient location in_agglo out_gdb
        none).head?
      = some (Op.spatialJoin in_agglo location
          (out_gdb ++ sep ++ (project_name ++ "_" ++ nutrient ++ "_Wastewater"))))
  ∧ ((wastewater_v1_geoprocessing sep project_name nutrient location in_wwtp in_factors_wwtp
        factors_table out_gdb none).trace.head?
      = some (Op.spatialJoin in_wwtp location
          (out_gdb ++ sep ++ (project_name ++ "_" ++ nutrient ++ "_Wastewater")))) := by
  refine ⟨rfl, rfl, rfl, ?_⟩
  cases h : lookup_factors nutrient factors_table <;>
    simp [wastewater_v1_geoprocessing, h, defaultOr, sepJoin]

/-- C10: when the factor lookup fails, wastewater_v1_geoprocessing raises
the exception only after SpatialJoin, DeleteIdentical and the PE_calc
AddField/CalculateField pair have run on the output feature class, and no
field other than PE_calc is ever added: the operation is not atomic on
error. -/
theorem wastewater_v1_not_atomic
    (sep project_name nutrient location in_wwtp in_factors_wwtp out_gdb : String)
    (factors_table : List FactorRow)
    (h : lookup_factors nutrient factors_table = none) :
    ((wastewater_v1_geoprocessing sep project_name nutrient location in_wwtp in_factors_wwtp
        factors_table out_gdb none).error.isSome)
  ∧ ((wastewater_v1_geoprocessing sep project_name nutrient location in_wwtp in_factors_wwtp
        factors_table out_gdb none).trace
      = [Op.spatialJoin in_wwtp location
           (out_gdb ++ sep ++ (project_name ++ "_" ++ nutrient ++ "_Wastewater")),
         Op.deleteIdentical
           (out_gdb ++ sep ++ (project_name ++ "_" ++ nutrient ++ "_Wastewater")) "RegCD",
         Op.addField
           (out_gdb ++ sep ++ (project_name ++ "_" ++ nutrient ++ "_Wastewater")) "PE_calc",
         Op.calculateField
           (out_gdb ++ sep ++ (project_name ++ "_" ++ nutrient ++ "_Wastewater")) "PE_calc"])
  ∧ (∀ fc fld, Op.addField fc fld
        ∈ (wastewater_v1_geoprocessing sep project_name nutrient location in_wwtp
            in_factors_wwtp factors_table out_gdb none).trace
      → fld = "PE_calc") := by
  refine ⟨?_, ?_, ?_⟩
  · simp [wastewater_v1_geoprocessing, h]
  · simp [wastewater_v1_geoprocessing, h, defaultOr, sepJoin]
  · intro fc fld hmem
    simp only [wastewater_v1_geoprocessing, h, defaultOr, sepJoin, List.mem_cons,
      List.not_mem_nil, or_false] at hmem
    rcases hmem with h1 | h1 | h1 | h1 <;> simp_all

/-- Witness for C10 with the empty factor table, in which no lookup can
succeed. -/
theorem wastewater_v1_not_atomic_witness :
    lookup_factors "N" ([] : List FactorRow) = none
  ∧ (wastewater_v1_geoprocessing "/" "p" "N" "r" "w" "f" [] "g" none).trace
      = [Op.spatialJoin "w" "r" ("g" ++ "/" ++ ("p" ++ "_" ++ "N" ++ "_Wastewater")),
         Op.deleteIdentical ("g" ++ "/" ++ ("p" ++ "_" ++ "N" ++ "_Wastewater")) "RegCD",
         Op.addField ("g" ++ "/" ++ ("p" ++ "_" ++ "N" ++ "_Wastewater")) "PE_calc",
         Op.calculateField ("g" ++ "/" ++ ("p" ++ "_" ++ "N" ++ "_Wastewater")) "PE_calc"] :=
  ⟨rfl, (wastewater_v1_not_atomic "/" "p" "N" "r" "w" "f" "g" [] rfl).2.1⟩

/-- C7: in every tool execute method, a non-empty selection produces the
spatial subset via Select_analysis into the SelectedRegion path and that
subset is the location passed to the geoprocessing function; an empty or
missing selection passes the region through unchanged, and then no
Select_analysis call appears anywhere in the run (the geoprocessing
functions themselves never call it). -/
theorem execute_selection_spec
    (sep out_gdb out_fld project_name nutrient region : String)
    (selection : Option String)
    (in_ipc in_sect4 in_agglo in_wwtp : String)
    (in_factors_wwtp_n in_factors_wwtp_p : String)
    (factors_table_n factors_table_p : List FactorRow) :
    (IndustryV2_execute sep out_gdb out_fld project_name nutrient region selection
        in_ipc in_sect4
      = (if optTruthy selection
         then Op.select region (selected_region_path sep out_gdb project_name)
                (selection.getD "") ::
              industry_v2_geoprocessing sep project_name (nutrient_code nutrient)
                (selected_region_path sep out_gdb project_name) in_ipc in_sect4 out_gdb
                none none
         else industry_v2_geoprocessing sep project_name (nutrient_code nutrient)
                region in_ipc in_sect4 out_gdb none none))
  ∧ (WastewaterV2_execute sep out_gdb out_fld project_name nutrient region selection in_agglo
      = (if optTruthy selection
         then Op.select region (selected_region_path sep out_gdb project_name)
                (selection.getD "") ::
              wastewater_v2_geoprocessing sep project_name (nutrient_code nutrient)
                (selected_region_path sep out_gdb project_name) in_agglo out_gdb none
                ++ [Op.delete (selected_region_path sep out_gdb project_name)]
         else wastewater_v2_geoprocessing sep project_name (nutrient_code nutrient)
                region in_agglo out_gdb none))
  ∧ ((WastewaterV1_execute sep out_gdb out_fld project_name nutrient region selection in_wwtp
        in_factors_wwtp_n in_factors_wwtp_p factors_table_n factors_table_p).trace
      = (if optTruthy selection
         then Op.select region (selected_region_path sep out_gdb project_name)
                (selection.getD "") ::
              (wastewater_v1_execute_geo sep out_gdb project_name nutrient
                 (selected_region_path sep out_gdb project_name) in_wwtp
                 in_factors_wwtp_n in_factors_wwtp_p factors_table_n factors_table_p).trace
              ++ (if (wastewater_v1_execute_geo sep out_gdb project_name nutrient
                       (selected_region_path sep out_gdb project_name) in_wwtp
                       in_factors_wwtp_n in_factors_wwtp_p factors_table_n
                       factors_table_p).error.isNone
                  then [Op.delete (selected_region_path sep out_gdb project_name)] else [])
         else (wastewater_v1_execute_geo sep out_gdb project_name nutrient region in_wwtp
                 in_factors_wwtp_n in_factors_wwtp_p factors_table_n
                 factors_table_p).trace))
  ∧ (optTruthy selection = false →
      (IndustryV2_execute sep out_gdb out_fld project_name nutrient region selection
          in_ipc in_sect4).filter Op.isSelect = []
      ∧ (WastewaterV2_execute sep out_gdb out_fld project_name nutrient region selection
          in_agglo).filter Op.isSelect = []
      ∧ (WastewaterV1_execute sep out_gdb out_fld project_name nutrient region selection
          in_wwtp in_factors_wwtp_n in_factors_wwtp_p factors_table_n
          factors_table_p).trace.filter Op.isSelect = []) := by
  by_cases hsel : optTruthy selection = true
  · refine ⟨by simp [IndustryV2_execute, hsel], by simp [WastewaterV2_execute, hsel], ?_, ?_⟩
    · cases herr : (wastewater_v1_execute_geo sep out_gdb project_name nutrient
          (selected_region_path sep out_gdb project_name) in_wwtp
          in_factors_wwtp_n in_factors_wwtp_p factors_table_n factors_table_p).error with
      | none =>
        rw [wastewater_v1_execute_geo] at herr
        simp [WastewaterV1_execute, wastewater_v1_execute_geo, hsel, herr]
      | some e =>
        rw [wastewater_v1_execute_geo] at herr
        simp [WastewaterV1_execute, wastewater_v1_execute_geo, hsel, herr]
    · intro hfalse
      rw [hsel] at hfalse
      exact absurd hfalse (by simp)
  · have hsel' : optTruthy selection = false := by
      revert hsel
      cases optTruthy selection <;> simp
    refine ⟨by simp [IndustryV2_execute, hsel'], by simp [WastewaterV2_execute, hsel'],
      by simp [WastewaterV1_execute, wastewater_v1_execute_geo, hsel'], ?_⟩
    intro hnosel
    refine ⟨?_, ?_, ?_⟩
    · simp [IndustryV2_execute, hsel', industry_geo_filter_select]
    · simp [WastewaterV2_execute, hsel', wastewater_v2_geo_filter_select]
    · simp [WastewaterV1_execute, hsel', wastewater_v1_geo_filter_select]

/-- Witness for C7 at concrete inputs with no selection supplied. -/
theorem execute_selection_spec_witness :
    (IndustryV2_execute "/" "g" "f" "p" "Nitrogen (N)" "r" none "ipc" "s4").filter
        Op.isSelect = []
  ∧ (WastewaterV2_execute "/" "g" "f" "p" "Nitrogen (N)" "r" none "agg").filter
        Op.isSelect = []
  ∧ (WastewaterV1_execute "/" "g" "f" "p" "Nitrogen (N)" "r" none "w" "fn" "fp"
        [] []).trace.filter Op.isSelect = [] :=
  (execute_selection_spec "/" "g" "f" "p" "Nitrogen (N)" "r" none "ipc" "s4" "agg" "w"
    "fn" "fp" [] []).2.2.2 rfl

/-- C8: the shared nutrient-mapping line of the three execute methods
maps the parameter string to the code N exactly when it equals the
string Nitrogen (N); every other string, including strings outside the
advertised value list, is mapped to P. -/
theorem nutrient_code_spec (s : String) :
    (nutrient_code s = "N" ↔ s = "Nitrogen (N)")
  ∧ (s ≠ "Nitrogen (N)" → nutrient_code s = "P") := by
  constructor
  · constructor
    · intro h
      by_contra hne
      rw [nutrient_code, if_neg hne] at h
      exact absurd h (by decide)
    · intro h
      simp [nutrient_code, h]
  · intro h
    simp [nutrient_code, h]

/-- Witness for C8 at the advertised Phosphorus value and at a string
outside the advertised value list. -/
theorem nutrient_code_spec_witness :
    nutrient_code "Nitrogen (N)" = "N"
  ∧ (("Phosphorus (P)" : String) ≠ "Nitrogen (N)" ∧ nutrient_code "Phosphorus (P)" = "P")
  ∧ (("Oxygen (O)" : String) ≠ "Nitrogen (N)" ∧ nutrient_code "Oxygen (O)" = "P") :=
  ⟨(nutrient_code_spec "Nitrogen (N)").1.mpr rfl,
   ⟨by decide, (nutrient_code_spec "Phosphorus (P)").2 (by decide)⟩,
   ⟨by decide, (nutrient_code_spec "Oxygen (O)").2 (by decide)⟩⟩

/-- C9: when a selection was requested, WastewaterV2.execute deletes the
temporary SelectedRegion feature class after geoprocessing, and
WastewaterV1.execute does so when its geoprocessing completes without
raising; IndustryV2.execute never issues a Delete_management call; with
no selection requested, no execute method deletes anything. -/
theorem execute_delete_spec
    (sep out_gdb out_fld project_name nutrient region : String)
    (selection : Option String)
    (in_ipc in_sect4 in_agglo in_wwtp : String)
    (in_factors_wwtp_n in_factors_wwtp_p : String)
    (factors_table_n factors_table_p : List FactorRow) :
    ((WastewaterV2_execute sep out_gdb out_fld project_name nutrient region selection
        in_agglo).filter Op.isDelete
      = (if optTruthy selection
         then [Op.delete (selected_region_path sep out_gdb project_name)] else []))
  ∧ ((WastewaterV1_execute sep out_gdb out_fld project_name nutrient region selection in_wwtp
        in_factors_wwtp_n in_factors_wwtp_p factors_table_n factors_table_p).trace.filter
        Op.isDelete
      = (if optTruthy selection
            && (wastewater_v1_execute_geo sep out_gdb project_name nutrient
                  (selected_region_path sep out_gdb project_name) in_wwtp
                  in_factors_wwtp_n in_factors_wwtp_p factors_table_n
                  factors_table_p).error.isNone
         then [Op.delete (selected_region_path sep out_gdb project_name)] else []))
  ∧ ((IndustryV2_execute sep out_gdb out_fld project_name nutrient region selection
        in_ipc in_sect4).filter Op.isDelete = []) := by
  by_cases hsel : optTruthy selection = true
  · refine ⟨?_, ?_, ?_⟩
    · simp [WastewaterV2_execute, hsel, Op.isDelete, wastewater_v2_geo_filter_delete]
    · cases herr : (wastewater_v1_execute_geo sep out_gdb project_name nutrient
          (selected_region_path sep out_gdb project_name) in_wwtp
          in_factors_wwtp_n in_factors_wwtp_p factors_table_n factors_table_p).error with
      | none =>
        rw [wastewater_v1_execute_geo] at herr
        simp [WastewaterV1_execute, wastewater_v1_execute_geo, hsel, herr, Op.isDelete,
          wastewater_v1_geo_filter_delete]
      | some e =>
        rw [wastewater_v1_execute_geo] at herr
        simp [WastewaterV1_execute, wastewater_v1_execute_geo, hsel, herr, Op.isDelete,
          wastewater_v1_geo_filter_delete]
    · simp [IndustryV2_execute, hsel, Op.isDelete, industry_geo_filter_delete]
  · have hsel' : optTruthy selection = false := by
      revert hsel
      cases optTruthy selection <;> simp
    refine ⟨?_, ?_, ?_⟩
    · simp [WastewaterV2_execute, hsel', wastewater_v2_geo_filter_delete]
    · simp [WastewaterV1_execute, hsel', wastewater_v1_geo_filter_delete]
    · simp [IndustryV2_execute, hsel', industry_geo_filter_delete]

end SLAMpy
